import Mathlib

/-!
Verification of the star-system simulation core (`star_system.py`):
the body data model, pairwise gravitational acceleration
(`accelerate_due_to_gravity`), collision detection and removal
(`check_collision`, `remove_body`), and the per-tick orchestration
(`calculate_all_body_interactions`, `update_all`).

Modelling conventions:
* Python floats are modelled by exact reals.
* A Python exception is modelled by the `Except` monad; for stateful
  operations the error payload carries the simulation state at the
  moment the exception escapes (so partial mutation before a raise is
  observable).
* Turtle objects are identified by a `Nat` id in a store; this models
  Python object identity and the aliasing between the live `bodies`
  list and the snapshot taken by `calculate_all_body_interactions`.
-/

/-- Discriminant for the two concrete `SolarSystemBody` subclasses
(`Sun` and `Planet`). -/
inductive BodyKind where
  | Star : BodyKind
  | Planet : BodyKind
deriving DecidableEq

/-- State of one `SolarSystemBody` turtle: mass, position, velocity,
display size, plus whether its drawing is currently cleared (true right
after `clear()`, false right after `draw()`). -/
structure Body where
  kind : BodyKind
  mass : ℝ
  pos : ℝ × ℝ
  velocity : ℝ × ℝ
  display_size : ℝ
  cleared : Bool

/-- `SolarSystemBody.min_display_size`. -/
noncomputable def min_display_size : ℝ := 20

/-- `SolarSystemBody.display_log_base`. -/
noncomputable def display_log_base : ℝ := 1.1

/-- `turtle.distance`: Euclidean distance between the two bodies'
positions. -/
noncomputable def distance (a b : Body) : ℝ :=
  Real.sqrt ((b.pos.1 - a.pos.1) ^ 2 + (b.pos.2 - a.pos.2) ^ 2)

/-- `math.radians`: degrees to radians. -/
noncomputable def radians (deg : ℝ) : ℝ := deg * (Real.pi / 180)

/-- `turtle.towards`: bearing, in degrees, of the line from `a`'s
position to `b`'s position, i.e. `atan2(dy, dx)` converted to degrees
(`Complex.arg` is exactly `atan2`, including `arg 0 = 0 = atan2(0,0)`).
The library's extra normalisation into `[0, 360)` is omitted: the angle
is consumed only through `cos`/`sin` of its radian form, which are
`360°`-periodic. -/
noncomputable def towards (a b : Body) : ℝ :=
  Complex.arg ⟨b.pos.1 - a.pos.1, b.pos.2 - a.pos.2⟩ * (180 / Real.pi)

/-- Python `math.log x b` (logarithm of `x` in base `b`): raises
`ValueError` on `x ≤ 0`. -/
noncomputable def mathLog (x b : ℝ) : Except Unit ℝ :=
  if x ≤ 0 then Except.error () else Except.ok (Real.log x / Real.log b)

/-- One iteration of the `for body in first, second` loop inside
`accelerate_due_to_gravity`: add `reverse * (force / body.mass)` along
`angle` to the body's velocity (`ZeroDivisionError` when
`body.mass = 0`). -/
noncomputable def applyAcc (force angle reverse : ℝ) (body : Body) : Except Unit Body :=
  if body.mass = 0 then Except.error () else
    Except.ok { body with velocity :=
      (body.velocity.1 + reverse * (force / body.mass * Real.cos (radians angle)),
       body.velocity.2 + reverse * (force / body.mass * Real.sin (radians angle))) }

/-- `SolarSystem.accelerate_due_to_gravity` (a static method on two body
objects): `force = m1 * m2 / distance**2` (a `ZeroDivisionError` escapes
when the squared distance is zero), `angle = first.towards(second)`,
then the velocity of `first` is updated with `reverse = 1` and the
velocity of `second` with `reverse = -1`. -/
noncomputable def accelerate_due_to_gravity (first second : Body) :
    Except Unit (Body × Body) :=
  if distance first second ^ 2 = 0 then Except.error () else
    let force := first.mass * second.mass / distance first second ^ 2
    let angle := towards first second
    match applyAcc force angle 1 first with
    | Except.error e => Except.error e
    | Except.ok first' =>
      match applyAcc force angle (-1) second with
      | Except.error e => Except.error e
      | Except.ok second' => Except.ok (first', second')

/-- The mutable world: a store of turtle objects (Python object identity
as `Nat` ids), the `SolarSystem.bodies` list (ids, in insertion order),
and a count of `Screen.update` flushes. -/
structure SimState where
  store : Nat → Body
  bodies : List Nat
  flushes : Nat

/-- Overwrite the object `id` in the store (mutation of a turtle
object). -/
def setBody (s : SimState) (id : Nat) (b : Body) : SimState :=
  { s with store := Function.update s.store id b }

/-- `SolarSystem.add_body`: append the body to the live list. -/
def add_body (s : SimState) (id : Nat) : SimState :=
  { s with bodies := s.bodies ++ [id] }

/-- `SolarSystemBody.__init__` for a fresh object `id`: set mass,
position and velocity, compute
`display_size = max (math.log(mass, display_log_base)) min_display_size`
(the `ValueError` from `math.log` escapes here, before registration,
when `mass ≤ 0`), then register via `add_body`. The error payload is
the unchanged system state. -/
noncomputable def SolarSystemBody.init (s : SimState) (kind : BodyKind) (mass : ℝ)
    (position velocity : ℝ × ℝ) (id : Nat) : Except SimState SimState :=
  match mathLog mass display_log_base with
  | Except.error _ => Except.error s
  | Except.ok lg =>
    Except.ok (add_body (setBody s id
      { kind := kind, mass := mass, pos := position, velocity := velocity,
        display_size := max lg min_display_size, cleared := false }) id)

/-- `SolarSystem.remove_body`: first `body.clear()` (the drawing is
erased), then `self.bodies.remove(body)` — Python's `list.remove`
raises `ValueError` when the element is absent, and by then the clear
has already happened, so the error payload carries the cleared store. -/
def remove_body (s : SimState) (id : Nat) : Except SimState SimState :=
  let s1 := setBody s id { s.store id with cleared := true }
  if id ∈ s1.bodies then Except.ok { s1 with bodies := s1.bodies.erase id }
  else Except.error s1

/-- `SolarSystem.check_collision` on the pair of object ids `(i, j)`:
a Planet–Planet pair is skipped outright; otherwise, when the visual
radii overlap, each Planet among the captured pair is removed (first,
then second). -/
noncomputable def check_collision (s : SimState) (i j : Nat) : Except SimState SimState :=
  let first := s.store i
  let second := s.store j
  if first.kind = BodyKind.Planet ∧ second.kind = BodyKind.Planet then Except.ok s
  else if distance first second < first.display_size / 2 + second.display_size / 2 then
    match (if first.kind = BodyKind.Planet then remove_body s i else Except.ok s) with
    | Except.error e => Except.error e
    | Except.ok s1 =>
      if second.kind = BodyKind.Planet then remove_body s1 j else Except.ok s1
  else Except.ok s

/-- The scan's call `accelerate_due_to_gravity(first, second)` acting on
the store at ids `i` and `j`: the snapshot entries alias the live
objects, so the mutation is written back to the store.  Mirrors the
static method including its sequencing (the second body's velocity is
read after the first body's update). -/
noncomputable def accelGravAt (s : SimState) (i j : Nat) : Except SimState SimState :=
  let first := s.store i
  if distance first (s.store j) ^ 2 = 0 then Except.error s else
    let force := first.mass * (s.store j).mass / distance first (s.store j) ^ 2
    let angle := towards first (s.store j)
    match applyAcc force angle 1 first with
    | Except.error _ => Except.error s
    | Except.ok first' =>
      let s1 := setBody s i first'
      match applyAcc force angle (-1) (s1.store j) with
      | Except.error _ => Except.error s1
      | Except.ok second' => Except.ok (setBody s1 j second')

/-- The ordered pair list produced by the nested loops
`for idx, first in enumerate(copy): for second in copy[idx+1:]`. -/
def pairsAux : List Nat → List (Nat × Nat)
  | [] => []
  | x :: xs => xs.map (fun y => (x, y)) ++ pairsAux xs

/-- One iteration of the inner loop body of
`calculate_all_body_interactions`: gravity, then collision check. -/
noncomputable def interactPair (s : SimState) (p : Nat × Nat) : Except SimState SimState :=
  match accelGravAt s p.1 p.2 with
  | Except.error e => Except.error e
  | Except.ok s1 => check_collision s1 p.1 p.2

/-- `SolarSystem.calculate_all_body_interactions`: copy the body list
(`bodies_copy = self.bodies.copy()`), then run gravity followed by the
collision check over every `i < j` pair of the copy. -/
noncomputable def calculate_all_body_interactions (s : SimState) : Except SimState SimState :=
  (pairsAux s.bodies).foldlM interactPair s

/-- `SolarSystemBody.move` followed by `SolarSystemBody.draw`: advance
the position by the velocity, clear and redraw (the body ends the tick
drawn, i.e. not cleared). -/
def moveDraw (b : Body) : Body :=
  { b with pos := (b.pos.1 + b.velocity.1, b.pos.2 + b.velocity.2), cleared := false }

/-- `SolarSystem.update_all`: move and redraw every live body, then one
`Screen.update` flush for the whole tick. -/
def update_all (s : SimState) : SimState :=
  let s' := s.bodies.foldl (fun t id => setBody t id (moveDraw (t.store id))) s
  { s' with flushes := s'.flushes + 1 }

/-- One driver tick (cf. `sample_star_system.py`):
`calculate_all_body_interactions` then `update_all`. -/
noncomputable def tick (s : SimState) : Except SimState SimState :=
  match calculate_all_body_interactions s with
  | Except.error e => Except.error e
  | Except.ok s1 => Except.ok (update_all s1)

/-- `n` consecutive driver ticks. -/
noncomputable def tickIter : Nat → SimState → Except SimState SimState
  | 0, s => Except.ok s
  | n + 1, s =>
    match tick s with
    | Except.error e => Except.error e
    | Except.ok s1 => tickIter n s1

/-- Total momentum of the two bodies `i` and `j`, componentwise. -/
noncomputable def momentum (s : SimState) (i j : Nat) : ℝ × ℝ :=
  ((s.store i).mass * (s.store i).velocity.1 + (s.store j).mass * (s.store j).velocity.1,
   (s.store i).mass * (s.store i).velocity.2 + (s.store j).mass * (s.store j).velocity.2)

/-! ### Basic lemmas about the store -/

theorem setBody_store_same (s : SimState) (id : Nat) (b : Body) :
    (setBody s id b).store id = b := by
  simp [setBody]

theorem setBody_store_ne (s : SimState) (id q : Nat) (h : q ≠ id) (b : Body) :
    (setBody s id b).store q = s.store q := by
  simp [setBody, Function.update_noteq h]

theorem setBody_bodies (s : SimState) (id : Nat) (b : Body) :
    (setBody s id b).bodies = s.bodies := rfl

/-- The distance is zero exactly when the two positions coincide. -/
theorem distance_eq_zero_iff (a b : Body) : distance a b = 0 ↔ a.pos = b.pos := by
  unfold distance
  rw [Real.sqrt_eq_zero (by positivity)]
  constructor
  · intro h
    have h1 : (b.pos.1 - a.pos.1) ^ 2 = 0 ∧ (b.pos.2 - a.pos.2) ^ 2 = 0 := by
      constructor <;> nlinarith [sq_nonneg (b.pos.1 - a.pos.1), sq_nonneg (b.pos.2 - a.pos.2)]
    have e1 : b.pos.1 = a.pos.1 := by nlinarith [h1.1]
    have e2 : b.pos.2 = a.pos.2 := by nlinarith [h1.2]
    exact Prod.ext e1.symm e2.symm
  · intro h
    rw [h]
    ring

/-! ### Pairwise gravity: the successful case in closed form -/

/-- When the distance and both masses are nonzero,
`accelerate_due_to_gravity` succeeds and applies the accelerations
`±F/m` along the bearing. -/
theorem accel_ok (a b : Body) (hd : distance a b ≠ 0)
    (hma : a.mass ≠ 0) (hmb : b.mass ≠ 0) :
    accelerate_due_to_gravity a b = Except.ok
      ({ a with velocity :=
          (a.velocity.1 + 1 * (a.mass * b.mass / distance a b ^ 2 / a.mass *
              Real.cos (radians (towards a b))),
           a.velocity.2 + 1 * (a.mass * b.mass / distance a b ^ 2 / a.mass *
              Real.sin (radians (towards a b)))) },
       { b with velocity :=
          (b.velocity.1 + (-1) * (a.mass * b.mass / distance a b ^ 2 / b.mass *
              Real.cos (radians (towards a b))),
           b.velocity.2 + (-1) * (a.mass * b.mass / distance a b ^ 2 / b.mass *
              Real.sin (radians (towards a b)))) }) := by
  simp only [accelerate_due_to_gravity, applyAcc,
    if_neg (pow_ne_zero 2 hd), if_neg hma, if_neg hmb]

/-- The conclusion of claim C1 at a pair of bodies: gravity succeeds,
each velocity change is `F/m` along the bearing (`a` forward, `b`
reversed), and the momentum changes cancel componentwise. -/
noncomputable def NewtonThirdLaw (a b : Body) : Prop :=
  ∃ a' b', accelerate_due_to_gravity a b = Except.ok (a', b') ∧
    (a'.velocity.1 - a.velocity.1 =
       a.mass * b.mass / distance a b ^ 2 / a.mass * Real.cos (radians (towards a b)) ∧
     a'.velocity.2 - a.velocity.2 =
       a.mass * b.mass / distance a b ^ 2 / a.mass * Real.sin (radians (towards a b)) ∧
     b'.velocity.1 - b.velocity.1 =
       -(a.mass * b.mass / distance a b ^ 2 / b.mass * Real.cos (radians (towards a b))) ∧
     b'.velocity.2 - b.velocity.2 =
       -(a.mass * b.mass / distance a b ^ 2 / b.mass * Real.sin (radians (towards a b)))) ∧
    a.mass * (a'.velocity.1 - a.velocity.1) = -(b.mass * (b'.velocity.1 - b.velocity.1)) ∧
    a.mass * (a'.velocity.2 - a.velocity.2) = -(b.mass * (b'.velocity.2 - b.velocity.2))

/-- C1: for every call of `accelerate_due_to_gravity` on two bodies with
positive masses and distinct positions, the velocity changes satisfy
Newton's third law exactly: `m_a * Δv_a = -(m_b * Δv_b)` componentwise,
with `Δv_a` along the bearing of magnitude `F/m_a` and `Δv_b` along the
opposite bearing of magnitude `F/m_b`, for `F = m_a*m_b/d²`. -/
theorem gravity_newton_third_law (a b : Body)
    (hma : 0 < a.mass) (hmb : 0 < b.mass) (hpos : a.pos ≠ b.pos) :
    NewtonThirdLaw a b := by
  have hd : distance a b ≠ 0 := fun h => hpos ((distance_eq_zero_iff a b).1 h)
  refine ⟨_, _, accel_ok a b hd hma.ne' hmb.ne', ⟨by ring, by ring, by ring, by ring⟩, ?_, ?_⟩ <;>
  · simp only
    field_simp
    ring

/-- Concrete bodies used by the C1 witness. -/
noncomputable def bodyW1 : Body :=
  { kind := BodyKind.Planet, mass := 1, pos := (0, 0), velocity := (0, 0),
    display_size := 20, cleared := false }

noncomputable def bodyW2 : Body :=
  { kind := BodyKind.Star, mass := 2, pos := (1, 0), velocity := (0, 0),
    display_size := 20, cleared := false }

/-- Witness for C1 at the concrete pair `bodyW1`, `bodyW2`. -/
theorem gravity_newton_third_law_witness :
    (0 < bodyW1.mass ∧ 0 < bodyW2.mass ∧ bodyW1.pos ≠ bodyW2.pos) ∧
      NewtonThirdLaw bodyW1 bodyW2 := by
  have h1 : 0 < bodyW1.mass := by norm_num [bodyW1]
  have h2 : 0 < bodyW2.mass := by norm_num [bodyW2]
  have h3 : bodyW1.pos ≠ bodyW2.pos := by
    simp [bodyW1, bodyW2, Prod.ext_iff]
  exact ⟨⟨h1, h2, h3⟩, gravity_newton_third_law bodyW1 bodyW2 h1 h2 h3⟩

/-! ### Claim C2: gravity at identical positions -/

/-- Concrete coincident bodies used to refute C2. -/
noncomputable def bodyC2a : Body :=
  { kind := BodyKind.Planet, mass := 1, pos := (5, 5), velocity := (0, 0),
    display_size := 20, cleared := false }

noncomputable def bodyC2b : Body :=
  { kind := BodyKind.Star, mass := 3, pos := (5, 5), velocity := (1, 2),
    display_size := 20, cleared := false }

/-- Counterexample to C2: two bodies at identical coordinates make
`accelerate_due_to_gravity` raise a `ZeroDivisionError` (there is no
internal guard), interrupting the computation. -/
theorem gravity_zero_distance_raises :
    accelerate_due_to_gravity bodyC2a bodyC2b = Except.error () := by
  have h : distance bodyC2a bodyC2b = 0 := by
    rw [distance_eq_zero_iff]
    simp [bodyC2a, bodyC2b]
  simp [accelerate_due_to_gravity, h]

/-- C2 amended: for every pair of bodies at identical coordinates,
computing gravity between them raises a division fault (the zero
distance is NOT guarded, so the fault escapes and interrupts the
tick). -/
theorem gravity_zero_distance_always_raises (a b : Body) (h : a.pos = b.pos) :
    accelerate_due_to_gravity a b = Except.error () := by
  have hd : distance a b = 0 := (distance_eq_zero_iff a b).2 h
  simp [accelerate_due_to_gravity, hd]

/-- Witness for the amended C2 at the concrete pair. -/
theorem gravity_zero_distance_always_raises_witness :
    bodyC2a.pos = bodyC2b.pos ∧
      accelerate_due_to_gravity bodyC2a bodyC2b = Except.error () := by
  have h : bodyC2a.pos = bodyC2b.pos := by simp [bodyC2a, bodyC2b]
  exact ⟨h, gravity_zero_distance_always_raises bodyC2a bodyC2b h⟩

/-! ### Claim C3: invalid mass rejected at construction -/

/-- C3: constructing a body with `mass ≤ 0` fails fast — the
`ValueError` from `math.log` escapes `__init__` synchronously, before
`add_body` runs, so the error payload (the system state at the raise)
is the unchanged input state: nothing was registered. -/
theorem invalid_mass_rejected (s : SimState) (kind : BodyKind) (mass : ℝ)
    (position velocity : ℝ × ℝ) (id : Nat) (h : mass ≤ 0) :
    SolarSystemBody.init s kind mass position velocity id = Except.error s := by
  simp [SolarSystemBody.init, mathLog, if_pos h]

/-- A throwaway body used to fill stores of concrete states. -/
noncomputable def fillerBody : Body :=
  { kind := BodyKind.Star, mass := 1, pos := (0, 0), velocity := (0, 0),
    display_size := 20, cleared := false }

/-- A system with no registered bodies. -/
noncomputable def emptyState : SimState :=
  { store := fun _ => fillerBody, bodies := [], flushes := 0 }

/-- Witness for C3: constructing a body of mass `-1` on the empty system
raises and leaves the system unchanged. -/
theorem invalid_mass_rejected_witness :
    (-1 : ℝ) ≤ 0 ∧
      SolarSystemBody.init emptyState BodyKind.Planet (-1) (0, 0) (0, 0) 0 =
        Except.error emptyState :=
  ⟨by norm_num,
   invalid_mass_rejected emptyState BodyKind.Planet (-1) (0, 0) (0, 0) 0 (by norm_num)⟩

/-! ### Claim C5: same-kind pairs are collision-exempt -/

/-- Shared helper: a same-kind pair never triggers any removal, so
`check_collision` returns the state unchanged. -/
theorem check_collision_same_kind (s : SimState) (i j : Nat)
    (h : (s.store i).kind = (s.store j).kind) :
    check_collision s i j = Except.ok s := by
  unfold check_collision
  cases hk : (s.store i).kind with
  | Star =>
    have hj : (s.store j).kind = BodyKind.Star := h.symm.trans hk
    simp [hk, hj]
  | Planet =>
    have hj : (s.store j).kind = BodyKind.Planet := h.symm.trans hk
    simp [hk, hj]

/-- C5: for a same-kind pair (Star–Star or Planet–Planet),
`check_collision` is a no-op on the whole system state — regardless of
overlap, no body is removed and the state is returned unchanged. -/
theorem same_kind_collision_noop (s : SimState) (i j : Nat)
    (h : (s.store i).kind = (s.store j).kind) :
    check_collision s i j = Except.ok s :=
  check_collision_same_kind s i j h

/-- A concrete planet for the C5 witness. -/
noncomputable def planetBody : Body :=
  { kind := BodyKind.Planet, mass := 1, pos := (0, 0), velocity := (0, 0),
    display_size := 20, cleared := false }

/-- A system of two coincident (fully overlapping) planets. -/
noncomputable def twoPlanetState : SimState :=
  { store := fun _ => planetBody, bodies := [0, 1], flushes := 0 }

/-- Witness for C5: two exactly coincident planets survive
`check_collision` with the state unchanged. -/
theorem same_kind_collision_noop_witness :
    (twoPlanetState.store 0).kind = (twoPlanetState.store 1).kind ∧
      check_collision twoPlanetState 0 1 = Except.ok twoPlanetState :=
  ⟨rfl, same_kind_collision_noop twoPlanetState 0 1 rfl⟩

/-! ### Geometry helpers for concrete, axis-aligned configurations -/

/-- Distance between two bodies on a common horizontal line. -/
theorem distance_xaxis (a b : Body) (xa xb y : ℝ) (ha : a.pos = (xa, y))
    (hb : b.pos = (xb, y)) (h : xa ≤ xb) : distance a b = xb - xa := by
  unfold distance
  rw [ha, hb]
  simp only [sub_self]
  rw [show ((0 : ℝ) ^ 2 = 0) by ring, add_zero, Real.sqrt_sq (by linarith)]

/-- The bearing from `a` to `b` is `0°` when `b` lies due east of `a`. -/
theorem radians_towards_xaxis (a b : Body) (xa xb y : ℝ) (ha : a.pos = (xa, y))
    (hb : b.pos = (xb, y)) (h : xa ≤ xb) : radians (towards a b) = 0 := by
  have hmk : (⟨b.pos.1 - a.pos.1, b.pos.2 - a.pos.2⟩ : ℂ) = ((xb - xa : ℝ) : ℂ) := by
    rw [ha, hb]
    apply Complex.ext <;> simp
  unfold radians towards
  rw [hmk, Complex.arg_ofReal_of_nonneg (by linarith)]
  ring

/-! ### Claim C4: Star–Planet collision removes the Planet only -/

/-- C4: for a Star-and-Planet pair both present in the system whose
distance is strictly below half the sum of the display sizes,
`check_collision` succeeds, the Planet ends up absent from the
collection, and every Star in the collection (in particular the paired
one) remains present — a Star is never removed. -/
theorem star_planet_collision_removes_planet (s : SimState) (i j : Nat)
    (hi : i ∈ s.bodies) (hj : j ∈ s.bodies) (hnd : s.bodies.Nodup) (hij : i ≠ j)
    (hkinds : ((s.store i).kind = BodyKind.Star ∧ (s.store j).kind = BodyKind.Planet) ∨
      ((s.store i).kind = BodyKind.Planet ∧ (s.store j).kind = BodyKind.Star))
    (hdist : distance (s.store i) (s.store j) <
      (s.store i).display_size / 2 + (s.store j).display_size / 2) :
    ∃ s', check_collision s i j = Except.ok s' ∧
      (∀ k, (k = i ∨ k = j) → (s.store k).kind = BodyKind.Planet → k ∉ s'.bodies) ∧
      (∀ k ∈ s.bodies, (s.store k).kind = BodyKind.Star → k ∈ s'.bodies) := by
  rcases hkinds with ⟨h1, h2⟩ | ⟨h1, h2⟩
  · -- i is the Star, j the Planet: only `remove_body s j` runs.
    refine ⟨{ setBody s j { s.store j with cleared := true } with
      bodies := s.bodies.erase j }, ?_, ?_, ?_⟩
    · unfold check_collision
      simp only [h1, h2, remove_body]
      simp [hdist, setBody_bodies, hj]
      exact ⟨by rw [h2], rfl⟩
    · intro k hk hkind
      rcases hk with rfl | rfl
      · rw [h1] at hkind; cases hkind
      · simpa using hnd.not_mem_erase
    · intro k hk hkind
      have hkj : k ≠ j := fun he => by rw [he, h2] at hkind; cases hkind
      simpa using (List.mem_erase_of_ne hkj).2 hk
  · -- i is the Planet, j the Star: only `remove_body s i` runs.
    refine ⟨{ setBody s i { s.store i with cleared := true } with
      bodies := s.bodies.erase i }, ?_, ?_, ?_⟩
    · unfold check_collision
      simp only [h1, h2, remove_body]
      simp [hdist, setBody_bodies, hi]
    · intro k hk hkind
      rcases hk with rfl | rfl
      · simpa using hnd.not_mem_erase
      · rw [h2] at hkind; cases hkind
    · intro k hk hkind
      have hki : k ≠ i := fun he => by rw [he, h1] at hkind; cases hkind
      simpa using (List.mem_erase_of_ne hki).2 hk

/-- A concrete star for the C4 witness. -/
noncomputable def starBody : Body :=
  { kind := BodyKind.Star, mass := 2, pos := (0, 0), velocity := (0, 0),
    display_size := 20, cleared := false }

/-- A concrete planet sitting 1 unit east of `starBody`. -/
noncomputable def nearPlanetBody : Body :=
  { kind := BodyKind.Planet, mass := 1, pos := (1, 0), velocity := (0, 0),
    display_size := 20, cleared := false }

/-- A system holding `starBody` (id 0) and `nearPlanetBody` (id 1). -/
noncomputable def starPlanetState : SimState :=
  { store := fun n => if n = 0 then starBody else nearPlanetBody,
    bodies := [0, 1], flushes := 0 }

/-- Witness for C4 at the concrete overlapping Star–Planet pair. -/
theorem star_planet_collision_removes_planet_witness :
    (distance (starPlanetState.store 0) (starPlanetState.store 1) <
        (starPlanetState.store 0).display_size / 2 +
          (starPlanetState.store 1).display_size / 2) ∧
      ∃ s', check_collision starPlanetState 0 1 = Except.ok s' ∧
        (∀ k, (k = 0 ∨ k = 1) → (starPlanetState.store k).kind = BodyKind.Planet →
          k ∉ s'.bodies) ∧
        (∀ k ∈ starPlanetState.bodies, (starPlanetState.store k).kind = BodyKind.Star →
          k ∈ s'.bodies) := by
  have hd : distance (starPlanetState.store 0) (starPlanetState.store 1) = 1 - 0 :=
    distance_xaxis _ _ 0 1 0 (by simp [starPlanetState, starBody])
      (by simp [starPlanetState, nearPlanetBody]) (by norm_num)
  have hlt : distance (starPlanetState.store 0) (starPlanetState.store 1) <
      (starPlanetState.store 0).display_size / 2 +
        (starPlanetState.store 1).display_size / 2 := by
    rw [hd]
    norm_num [starPlanetState, starBody, nearPlanetBody]
  refine ⟨hlt, star_planet_collision_removes_planet starPlanetState 0 1 ?_ ?_ ?_ ?_ ?_ hlt⟩
  · simp [starPlanetState]
  · simp [starPlanetState]
  · simp [starPlanetState]
  · norm_num
  · left
    constructor <;> simp [starPlanetState, starBody, nearPlanetBody]

/-! ### Claim C8: update_all semantics -/

/-- Store contents after the `update_all` loop: each live body (once,
thanks to no-duplicates) is moved and redrawn; others are untouched. -/
theorem update_foldl_store (l : List Nat) (t : SimState) (q : Nat) (hnd : l.Nodup) :
    (List.foldl (fun t id => setBody t id (moveDraw (t.store id))) t l).store q =
      if q ∈ l then moveDraw (t.store q) else t.store q := by
  induction l generalizing t with
  | nil => simp
  | cons x xs ih =>
    have hx : x ∉ xs := (List.nodup_cons.1 hnd).1
    have hxs : xs.Nodup := (List.nodup_cons.1 hnd).2
    simp only [List.foldl_cons]
    rw [ih _ hxs]
    by_cases hqx : q = x
    · subst hqx
      simp [hx, setBody_store_same]
    · by_cases hqxs : q ∈ xs
      · simp [hqxs, setBody_store_ne _ _ _ hqx _, List.mem_cons, hqx]
      · simp [hqxs, setBody_store_ne _ _ _ hqx _, List.mem_cons, hqx]

/-- The `update_all` loop does not touch the body list or the flush
count. -/
theorem update_foldl_frame (l : List Nat) (t : SimState) :
    (List.foldl (fun t id => setBody t id (moveDraw (t.store id))) t l).bodies = t.bodies ∧
    (List.foldl (fun t id => setBody t id (moveDraw (t.store id))) t l).flushes = t.flushes := by
  induction l generalizing t with
  | nil => exact ⟨rfl, rfl⟩
  | cons x xs ih =>
    simp only [List.foldl_cons]
    exact ih _

/-- C8: `update_all` advances every live body's position by exactly its
velocity (one step, no time scaling), leaves every velocity unchanged,
and performs exactly one batched screen flush for the whole tick. -/
theorem update_all_one_step_one_flush (s : SimState) (hnd : s.bodies.Nodup) :
    (update_all s).flushes = s.flushes + 1 ∧
    ∀ id ∈ s.bodies,
      ((update_all s).store id).pos =
        ((s.store id).pos.1 + (s.store id).velocity.1,
         (s.store id).pos.2 + (s.store id).velocity.2) ∧
      ((update_all s).store id).velocity = (s.store id).velocity := by
  constructor
  · show (List.foldl _ s s.bodies).flushes + 1 = s.flushes + 1
    rw [(update_foldl_frame s.bodies s).2]
  · intro id hid
    have hs : (update_all s).store id = moveDraw (s.store id) := by
      show (List.foldl _ s s.bodies).store id = _
      rw [update_foldl_store s.bodies s id hnd, if_pos hid]
    rw [hs]
    exact ⟨rfl, rfl⟩

/-- Witness for C8 on the concrete two-planet system. -/
theorem update_all_one_step_one_flush_witness :
    twoPlanetState.bodies.Nodup ∧
      ((update_all twoPlanetState).flushes = twoPlanetState.flushes + 1 ∧
      ∀ id ∈ twoPlanetState.bodies,
        ((update_all twoPlanetState).store id).pos =
          ((twoPlanetState.store id).pos.1 + (twoPlanetState.store id).velocity.1,
           (twoPlanetState.store id).pos.2 + (twoPlanetState.store id).velocity.2) ∧
        ((update_all twoPlanetState).store id).velocity = (twoPlanetState.store id).velocity) := by
  have hnd : twoPlanetState.bodies.Nodup := by
    show ([0, 1] : List Nat).Nodup
    decide
  exact ⟨hnd, update_all_one_step_one_flush twoPlanetState hnd⟩

/-! ### Claim C6: the pairwise scan runs over a snapshot -/

/-- Both components of any generated pair come from the snapshot list. -/
theorem mem_of_mem_pairsAux (l : List Nat) (p : Nat × Nat) (h : p ∈ pairsAux l) :
    p.1 ∈ l ∧ p.2 ∈ l := by
  induction l with
  | nil => cases h
  | cons x xs ih =>
    simp only [pairsAux, List.mem_append, List.mem_map] at h
    rcases h with ⟨y, hy, he⟩ | h
    · rw [← he]
      exact ⟨List.mem_cons_self x xs, List.mem_cons_of_mem x hy⟩
    · exact ⟨List.mem_cons_of_mem x (ih h).1, List.mem_cons_of_mem x (ih h).2⟩

/-- Counting a pair in the head's block of generated pairs. -/
theorem count_map_pair (x : Nat) (xs : List Nat) (b : Nat) :
    ((xs.map fun y => (x, y)).count (x, b)) = xs.count b := by
  induction xs with
  | nil => rfl
  | cons z zs ih =>
    simp only [List.map_cons, List.count_cons, ih]
    by_cases h : z = b <;> simp [h]

/-- On a duplicate-free snapshot, each unordered pair of distinct
elements is generated exactly once (in one orientation or the other). -/
theorem pairsAux_count_once (l : List Nat) (hnd : l.Nodup) (a b : Nat)
    (ha : a ∈ l) (hb : b ∈ l) (hab : a ≠ b) :
    (pairsAux l).count (a, b) + (pairsAux l).count (b, a) = 1 := by
  induction l with
  | nil => cases ha
  | cons x xs ih =>
    have hx : x ∉ xs := (List.nodup_cons.1 hnd).1
    have hxs : xs.Nodup := (List.nodup_cons.1 hnd).2
    simp only [pairsAux, List.count_append]
    rcases List.mem_cons.1 ha with rfl | haxs
    · -- a = x: the pair appears exactly once, as (a, b) in the map block.
      have hbxs : b ∈ xs := by
        rcases List.mem_cons.1 hb with rfl | h
        · exact absurd rfl hab
        · exact h
      have c1 : (xs.map fun y => (a, y)).count (a, b) = 1 :=
        (count_map_pair a xs b).trans (List.count_eq_one_of_mem hxs hbxs)
      have c2 : (xs.map fun y => (a, y)).count (b, a) = 0 := by
        rw [List.count_eq_zero]
        intro hmem
        rcases List.mem_map.1 hmem with ⟨y, _, he⟩
        simp [Prod.ext_iff] at he
        exact hab he.1
      have c3 : (pairsAux xs).count (a, b) = 0 := by
        rw [List.count_eq_zero]
        intro hmem
        exact hx (mem_of_mem_pairsAux xs _ hmem).1
      have c4 : (pairsAux xs).count (b, a) = 0 := by
        rw [List.count_eq_zero]
        intro hmem
        exact hx (mem_of_mem_pairsAux xs _ hmem).2
      omega
    · rcases List.mem_cons.1 hb with rfl | hbxs
      · -- b = x: the pair appears exactly once, as (b, a) in the map block.
        have c1 : (xs.map fun y => (b, y)).count (b, a) = 1 :=
          (count_map_pair b xs a).trans (List.count_eq_one_of_mem hxs haxs)
        have c2 : (xs.map fun y => (b, y)).count (a, b) = 0 := by
          rw [List.count_eq_zero]
          intro hmem
          rcases List.mem_map.1 hmem with ⟨y, _, he⟩
          simp [Prod.ext_iff] at he
          exact hab he.1.symm
        have c3 : (pairsAux xs).count (a, b) = 0 := by
          rw [List.count_eq_zero]
          intro hmem
          exact hx (mem_of_mem_pairsAux xs _ hmem).2
        have c4 : (pairsAux xs).count (b, a) = 0 := by
          rw [List.count_eq_zero]
          intro hmem
          exact hx (mem_of_mem_pairsAux xs _ hmem).1
        omega
      · -- both in the tail: the head's map block contributes nothing.
        have c1 : (xs.map fun y => (x, y)).count (a, b) = 0 := by
          rw [List.count_eq_zero]
          intro hmem
          rcases List.mem_map.1 hmem with ⟨y, hy, he⟩
          simp [Prod.ext_iff] at he
          exact hx (by rw [he.1]; exact haxs)
        have c2 : (xs.map fun y => (x, y)).count (b, a) = 0 := by
          rw [List.count_eq_zero]
          intro hmem
          rcases List.mem_map.1 hmem with ⟨y, hy, he⟩
          simp [Prod.ext_iff] at he
          exact hx (by rw [he.1]; exact hbxs)
        have := ih hxs haxs hbxs
        omega

/-- Every generated pair is an index-ordered pair of the snapshot. -/
theorem pairsAux_index_ordered (l : List Nat) (p : Nat × Nat) (hp : p ∈ pairsAux l) :
    ∃ i j : Fin l.length, (i : ℕ) < (j : ℕ) ∧ l.get i = p.1 ∧ l.get j = p.2 := by
  induction l with
  | nil => cases hp
  | cons x xs ih =>
    simp only [pairsAux, List.mem_append, List.mem_map] at hp
    rcases hp with ⟨y, hy, he⟩ | hp
    · rcases List.mem_iff_get.1 hy with ⟨n, hn⟩
      refine ⟨⟨0, by simp⟩, n.succ, by simp, ?_, ?_⟩
      · simp [← he]
      · rw [← he]
        exact hn
    · rcases ih hp with ⟨i, j, hij, hi, hj⟩
      exact ⟨i.succ, j.succ, by simpa using hij, hi, hj⟩

/-- C6: `calculate_all_body_interactions` folds gravity-then-collision
over the pair list of a snapshot of the collection taken at scan start
(removals inside the fold touch only the live collection, never this
list), and on a duplicate-free collection that list enumerates each
unordered pair exactly once, as an index-ordered pair of the snapshot —
no pair is skipped or processed twice. -/
theorem scan_snapshot_each_pair_once (s : SimState) (hnd : s.bodies.Nodup) :
    calculate_all_body_interactions s = (pairsAux s.bodies).foldlM interactPair s ∧
    (∀ a b : Nat, a ∈ s.bodies → b ∈ s.bodies → a ≠ b →
      (pairsAux s.bodies).count (a, b) + (pairsAux s.bodies).count (b, a) = 1) ∧
    (∀ p ∈ pairsAux s.bodies, ∃ i j : Fin s.bodies.length,
      (i : ℕ) < (j : ℕ) ∧ s.bodies.get i = p.1 ∧ s.bodies.get j = p.2) := by
  refine ⟨rfl, ?_, ?_⟩
  · intro a b ha hb hab
    exact pairsAux_count_once s.bodies hnd a b ha hb hab
  · intro p hp
    exact pairsAux_index_ordered s.bodies p hp

/-- Witness for C6 on the concrete two-planet system. -/
theorem scan_snapshot_each_pair_once_witness :
    twoPlanetState.bodies.Nodup ∧
      calculate_all_body_interactions twoPlanetState =
        (pairsAux twoPlanetState.bodies).foldlM interactPair twoPlanetState ∧
      (∀ a b : Nat, a ∈ twoPlanetState.bodies → b ∈ twoPlanetState.bodies → a ≠ b →
        (pairsAux twoPlanetState.bodies).count (a, b) +
          (pairsAux twoPlanetState.bodies).count (b, a) = 1) ∧
      (∀ p ∈ pairsAux twoPlanetState.bodies, ∃ i j : Fin twoPlanetState.bodies.length,
        (i : ℕ) < (j : ℕ) ∧ twoPlanetState.bodies.get i = p.1 ∧
          twoPlanetState.bodies.get j = p.2) := by
  have hnd : twoPlanetState.bodies.Nodup := by
    show ([0, 1] : List Nat).Nodup
    decide
  exact ⟨hnd, scan_snapshot_each_pair_once twoPlanetState hnd⟩

/-! ### Claim C7: momentum conservation for an isolated two-body system -/

/-- A successful gravity application never touches the live list. -/
theorem accelGravAt_ok_bodies (s : SimState) (i j : Nat) (s' : SimState)
    (h : accelGravAt s i j = Except.ok s') : s'.bodies = s.bodies := by
  simp only [accelGravAt] at h
  split at h
  · exact Except.noConfusion h
  · split at h
    · exact Except.noConfusion h
    · split at h
      · exact Except.noConfusion h
      · rw [← Except.ok.inj h]
        rfl

/-- Closed form of a successful in-scan gravity application on distinct
ids: both guards pass and the two velocity kicks are written back. -/
theorem accelGravAt_eq (s : SimState) (i j : Nat) (hij : i ≠ j)
    (hd : distance (s.store i) (s.store j) ^ 2 ≠ 0)
    (hmi : (s.store i).mass ≠ 0) (hmj : (s.store j).mass ≠ 0) :
    accelGravAt s i j = Except.ok (setBody (setBody s i
      { s.store i with velocity :=
          ((s.store i).velocity.1 + 1 * ((s.store i).mass * (s.store j).mass /
              distance (s.store i) (s.store j) ^ 2 / (s.store i).mass *
              Real.cos (radians (towards (s.store i) (s.store j)))),
           (s.store i).velocity.2 + 1 * ((s.store i).mass * (s.store j).mass /
              distance (s.store i) (s.store j) ^ 2 / (s.store i).mass *
              Real.sin (radians (towards (s.store i) (s.store j))))) }) j
      { s.store j with velocity :=
          ((s.store j).velocity.1 + (-1) * ((s.store i).mass * (s.store j).mass /
              distance (s.store i) (s.store j) ^ 2 / (s.store j).mass *
              Real.cos (radians (towards (s.store i) (s.store j)))),
           (s.store j).velocity.2 + (-1) * ((s.store i).mass * (s.store j).mass /
              distance (s.store i) (s.store j) ^ 2 / (s.store j).mass *
              Real.sin (radians (towards (s.store i) (s.store j))))) }) := by
  simp only [accelGravAt, applyAcc, if_neg hd, if_neg hmi,
    setBody_store_ne s i j (Ne.symm hij), if_neg hmj]

/-- Successful gravity on a pair of distinct ids: the live list, every
mass and every kind are unchanged, and the pair's total momentum is
conserved exactly (the two velocity kicks cancel). -/
theorem accelGravAt_ok_spec (s : SimState) (i j : Nat) (hij : i ≠ j) (s' : SimState)
    (h : accelGravAt s i j = Except.ok s') :
    s'.bodies = s.bodies ∧
    momentum s' i j = momentum s i j ∧
    ∀ q, (s'.store q).mass = (s.store q).mass ∧ (s'.store q).kind = (s.store q).kind := by
  by_cases hd : distance (s.store i) (s.store j) ^ 2 = 0
  · have he : accelGravAt s i j = Except.error s := by
      simp only [accelGravAt, if_pos hd]
    rw [he] at h
    exact Except.noConfusion h
  · by_cases hmi : (s.store i).mass = 0
    · have he : accelGravAt s i j = Except.error s := by
        simp only [accelGravAt, applyAcc, if_neg hd, if_pos hmi]
      rw [he] at h
      exact Except.noConfusion h
    · by_cases hmj : (s.store j).mass = 0
      · have he : accelGravAt s i j = Except.error (setBody s i
            { s.store i with velocity :=
                ((s.store i).velocity.1 + 1 * ((s.store i).mass * (s.store j).mass /
                    distance (s.store i) (s.store j) ^ 2 / (s.store i).mass *
                    Real.cos (radians (towards (s.store i) (s.store j)))),
                 (s.store i).velocity.2 + 1 * ((s.store i).mass * (s.store j).mass /
                    distance (s.store i) (s.store j) ^ 2 / (s.store i).mass *
                    Real.sin (radians (towards (s.store i) (s.store j))))) }) := by
          simp only [accelGravAt, applyAcc, if_neg hd, if_neg hmi,
            setBody_store_ne s i j (Ne.symm hij), if_pos hmj]
        rw [he] at h
        exact Except.noConfusion h
      · rw [accelGravAt_eq s i j hij hd hmi hmj] at h
        rw [← Except.ok.inj h]
        refine ⟨rfl, ?_, ?_⟩
        · unfold momentum
          rw [setBody_store_ne _ j i hij _, setBody_store_same, setBody_store_same]
          simp only [Prod.mk.injEq]
          constructor
          · field_simp
            ring
          · field_simp
            ring
        · intro q
          by_cases hqj : q = j
          · subst hqj
            rw [setBody_store_same]
            exact ⟨rfl, rfl⟩
          · rw [setBody_store_ne _ j q hqj _]
            by_cases hqi : q = i
            · subst hqi
              rw [setBody_store_same]
              exact ⟨rfl, rfl⟩
            · rw [setBody_store_ne _ i q hqi _]
              exact ⟨rfl, rfl⟩

/-- A successful collision check either leaves the whole state untouched
or strictly shrinks the live list (some Planet was removed). -/
theorem check_collision_ok_cases (s : SimState) (i j : Nat) (s' : SimState)
    (h : check_collision s i j = Except.ok s') :
    s' = s ∨ s'.bodies.length < s.bodies.length := by
  simp only [check_collision, remove_body, setBody_bodies] at h
  split at h
  · exact Or.inl (Except.ok.inj h).symm
  · split at h
    · -- overlapping: the inner match on the first removal attempt
      split at h
      · rename_i heq
        exact Except.noConfusion h
      · rename_i s1 heq
        -- analyse how s1 was produced
        by_cases h3 : (s.store i).kind = BodyKind.Planet
        · rw [if_pos h3] at heq
          by_cases h4 : i ∈ s.bodies
          · rw [if_pos h4] at heq
            have hs1 : s1.bodies = s.bodies.erase i := by
              rw [← Except.ok.inj heq]
            have hlen1 : s1.bodies.length < s.bodies.length := by
              rw [hs1, List.length_erase_of_mem h4]
              exact Nat.pred_lt (Nat.pos_iff_ne_zero.1 (List.length_pos.2
                (List.ne_nil_of_mem h4)))
            -- now the second conditional removal
            split at h
            · -- second is a Planet too: another removal attempt from s1
              by_cases h6 : j ∈ s1.bodies
              · rw [if_pos h6] at h
                right
                rw [← Except.ok.inj h]
                calc (s1.bodies.erase j).length ≤ s1.bodies.length :=
                      (List.erase_sublist j s1.bodies).length_le
                  _ < s.bodies.length := hlen1
              · rw [if_neg h6] at h
                exact Except.noConfusion h
            · right
              rw [← Except.ok.inj h]
              exact hlen1
          · rw [if_neg h4] at heq
            exact Except.noConfusion heq
        · rw [if_neg h3] at heq
          have hs1 : s1 = s := (Except.ok.inj heq).symm
          subst hs1
          split at h
          · -- only the second body is a Planet
            by_cases h6 : j ∈ s1.bodies
            · rw [if_pos h6] at h
              right
              rw [← Except.ok.inj h]
              rw [List.length_erase_of_mem h6]
              exact Nat.pred_lt (Nat.pos_iff_ne_zero.1 (List.length_pos.2
                (List.ne_nil_of_mem h6)))
            · rw [if_neg h6] at h
              exact Except.noConfusion h
          · exact Or.inl (Except.ok.inj h).symm
    · exact Or.inl (Except.ok.inj h).symm

/-- The `update_all` loop changes no body's velocity, mass or kind. -/
theorem update_foldl_fields (l : List Nat) (t : SimState) (q : Nat) :
    ((List.foldl (fun t id => setBody t id (moveDraw (t.store id))) t l).store q).velocity =
      (t.store q).velocity ∧
    ((List.foldl (fun t id => setBody t id (moveDraw (t.store id))) t l).store q).mass =
      (t.store q).mass ∧
    ((List.foldl (fun t id => setBody t id (moveDraw (t.store id))) t l).store q).kind =
      (t.store q).kind := by
  induction l generalizing t with
  | nil => exact ⟨rfl, rfl, rfl⟩
  | cons x xs ih =>
    simp only [List.foldl_cons]
    refine ⟨?_, ?_, ?_⟩ <;>
    · rcases ih (setBody t x (moveDraw (t.store x))) with ⟨h1, h2, h3⟩
      first
        | rw [h1] | rw [h2] | rw [h3]
      by_cases hqx : q = x
      · subst hqx
        rw [setBody_store_same]
        rfl
      · rw [setBody_store_ne _ x q hqx _]

/-- `update_all` preserves the live list, every velocity, mass and
kind, and the two-body momentum. -/
theorem update_all_fields (s : SimState) (q : Nat) :
    (update_all s).bodies = s.bodies ∧
    ((update_all s).store q).velocity = (s.store q).velocity ∧
    ((update_all s).store q).mass = (s.store q).mass ∧
    ((update_all s).store q).kind = (s.store q).kind := by
  refine ⟨?_, ?_⟩
  · show (List.foldl _ s s.bodies).bodies = s.bodies
    exact (update_foldl_frame s.bodies s).1
  · exact update_foldl_fields s.bodies s q

/-- `update_all` preserves the two-body momentum. -/
theorem update_all_momentum (s : SimState) (i j : Nat) :
    momentum (update_all s) i j = momentum s i j := by
  unfold momentum
  rw [(update_all_fields s i).2.1, (update_all_fields s i).2.2.1,
    (update_all_fields s j).2.1, (update_all_fields s j).2.2.1]

/-- A successful collision check can only shrink the live list. -/
theorem check_collision_ok_sublist (s : SimState) (i j : Nat) (s' : SimState)
    (h : check_collision s i j = Except.ok s') :
    List.Sublist s'.bodies s.bodies := by
  simp only [check_collision, remove_body, setBody_bodies] at h
  split at h
  · rw [← Except.ok.inj h]
  · split at h
    · split at h
      · exact Except.noConfusion h
      · rename_i s1 heq
        by_cases h3 : (s.store i).kind = BodyKind.Planet
        · rw [if_pos h3] at heq
          by_cases h4 : i ∈ s.bodies
          · rw [if_pos h4] at heq
            have hs1 : s1.bodies = s.bodies.erase i := by
              rw [← Except.ok.inj heq]
            have hsub1 : List.Sublist s1.bodies s.bodies := by
              rw [hs1]
              exact List.erase_sublist i s.bodies
            split at h
            · by_cases h6 : j ∈ s1.bodies
              · rw [if_pos h6] at h
                rw [← Except.ok.inj h]
                exact List.Sublist.trans (List.erase_sublist j s1.bodies) hsub1
              · rw [if_neg h6] at h
                exact Except.noConfusion h
            · rw [← Except.ok.inj h]
              exact hsub1
          · rw [if_neg h4] at heq
            exact Except.noConfusion heq
        · rw [if_neg h3] at heq
          have hs1 : s1 = s := (Except.ok.inj heq).symm
          subst hs1
          split at h
          · by_cases h6 : j ∈ s1.bodies
            · rw [if_pos h6] at h
              rw [← Except.ok.inj h]
              exact List.erase_sublist j s1.bodies
            · rw [if_neg h6] at h
              exact Except.noConfusion h
          · rw [← Except.ok.inj h]
    · rw [← Except.ok.inj h]

/-- One gravity-plus-collision step can only shrink the live list. -/
theorem interactPair_ok_sublist (t : SimState) (p : Nat × Nat) (t1 : SimState)
    (h : interactPair t p = Except.ok t1) : List.Sublist t1.bodies t.bodies := by
  simp only [interactPair] at h
  cases ha : accelGravAt t p.1 p.2 with
  | error e =>
    rw [ha] at h
    exact Except.noConfusion h
  | ok sg =>
    rw [ha] at h
    have hsub := check_collision_ok_sublist sg p.1 p.2 t1 h
    rw [accelGravAt_ok_bodies t p.1 p.2 sg ha] at hsub
    exact hsub

/-- The whole pairwise fold can only shrink the live list. -/
theorem foldlM_interact_sublist (l : List (Nat × Nat)) :
    ∀ t t1 : SimState, l.foldlM interactPair t = Except.ok t1 →
      List.Sublist t1.bodies t.bodies := by
  induction l with
  | nil =>
    intro t t1 h
    rw [← Except.ok.inj h]
  | cons p ps ih =>
    intro t t1 h
    rw [List.foldlM_cons] at h
    cases hi : interactPair t p with
    | error e =>
      rw [hi] at h
      exact Except.noConfusion h
    | ok tm =>
      rw [hi] at h
      exact List.Sublist.trans (ih tm t1 h) (interactPair_ok_sublist t p tm hi)

/-- A successful scan can only shrink the live list. -/
theorem calculate_ok_sublist (s s' : SimState)
    (h : calculate_all_body_interactions s = Except.ok s') :
    List.Sublist s'.bodies s.bodies :=
  foldlM_interact_sublist (pairsAux s.bodies) s s' h

/-- A successful tick can only shrink the live list. -/
theorem tick_ok_sublist (s s' : SimState) (h : tick s = Except.ok s') :
    List.Sublist s'.bodies s.bodies := by
  simp only [tick] at h
  cases hc : calculate_all_body_interactions s with
  | error e =>
    rw [hc] at h
    exact Except.noConfusion h
  | ok sc =>
    rw [hc] at h
    rw [← Except.ok.inj h]
    rw [(update_all_fields sc 0).1]
    exact calculate_ok_sublist s sc hc

/-- Iterated ticks can only shrink the live list. -/
theorem tickIter_ok_sublist (n : Nat) :
    ∀ s sF : SimState, tickIter n s = Except.ok sF →
      List.Sublist sF.bodies s.bodies := by
  induction n with
  | zero =>
    intro s sF h
    rw [← Except.ok.inj h]
  | succ n ih =>
    intro s sF h
    simp only [tickIter] at h
    cases ht : tick s with
    | error e =>
      rw [ht] at h
      exact Except.noConfusion h
    | ok s1 =>
      rw [ht] at h
      exact List.Sublist.trans (ih s1 sF h) (tick_ok_sublist s s1 ht)

/-- One tick of a two-body system that keeps both bodies alive conserves
total momentum and preserves masses and kinds. -/
theorem tick_two_body (s : SimState) (i j : Nat) (hij : i ≠ j) (hb : s.bodies = [i, j])
    (s1 : SimState) (h : tick s = Except.ok s1) (hkeep : s1.bodies = [i, j]) :
    momentum s1 i j = momentum s i j ∧
    ∀ q, (s1.store q).mass = (s.store q).mass ∧ (s1.store q).kind = (s.store q).kind := by
  simp only [tick] at h
  cases hc : calculate_all_body_interactions s with
  | error e =>
    rw [hc] at h
    exact Except.noConfusion h
  | ok sc =>
    rw [hc] at h
    have hs1 : s1 = update_all sc := (Except.ok.inj h).symm
    have hcalc : calculate_all_body_interactions s =
        interactPair s (i, j) >>= fun t => pure t := by
      unfold calculate_all_body_interactions
      rw [hb]
      rfl
    rw [hcalc] at hc
    cases hip : interactPair s (i, j) with
    | error e =>
      rw [hip] at hc
      exact Except.noConfusion hc
    | ok sa =>
      rw [hip] at hc
      have hsc : sa = sc := Except.ok.inj hc
      subst hsc
      simp only [interactPair] at hip
      cases ha : accelGravAt s i j with
      | error e =>
        rw [ha] at hip
        exact Except.noConfusion hip
      | ok sg =>
        rw [ha] at hip
        obtain ⟨hgb, hgm, hgmk⟩ := accelGravAt_ok_spec s i j hij sg ha
        rcases check_collision_ok_cases sg i j sa hip with hEq | hlt
        · subst hEq
          constructor
          · rw [hs1, update_all_momentum, hgm]
          · intro q
            constructor
            · rw [hs1, (update_all_fields sa q).2.2.1, (hgmk q).1]
            · rw [hs1, (update_all_fields sa q).2.2.2, (hgmk q).2]
        · exfalso
          have hsab : sa.bodies = [i, j] := by
            rw [← hkeep, hs1, (update_all_fields sa 0).1]
          rw [hsab, hgb, hb] at hlt
          simp at hlt

/-- Any number of ticks of a two-body system during which both bodies
stay alive conserves total momentum (inductive core of C7). -/
theorem tickIter_two_body (n : Nat) (i j : Nat) (hij : i ≠ j) (sF : SimState) :
    ∀ s : SimState, s.bodies = [i, j] → tickIter n s = Except.ok sF →
      sF.bodies = [i, j] → momentum sF i j = momentum s i j := by
  induction n with
  | zero =>
    intro s _ hrun _
    rw [← Except.ok.inj hrun]
  | succ n ih =>
    intro s hb hrun hF
    simp only [tickIter] at hrun
    cases ht : tick s with
    | error e =>
      rw [ht] at hrun
      exact Except.noConfusion hrun
    | ok s1 =>
      rw [ht] at hrun
      have hs1b : s1.bodies = [i, j] := by
        have hsub1 : List.Sublist s1.bodies [i, j] := hb ▸ tick_ok_sublist s s1 ht
        have hsub2 : List.Sublist ([i, j] : List Nat) s1.bodies :=
          hF ▸ tickIter_ok_sublist n s1 sF hrun
        exact hsub1.antisymm hsub2
      have hstep := tick_two_body s i j hij hb s1 ht hs1b
      rw [ih s1 hs1b hrun hF, hstep.1]

/-- C7: for an isolated two-body system (exactly the bodies `i ≠ j`,
positive masses, distinct positions) run for any number of ticks during
which no collision removal is triggered (both bodies are still alive at
the end), the total momentum `m_i*v_i + m_j*v_j` is exactly invariant
(in exact real arithmetic). -/
theorem two_body_momentum_invariant (n : Nat) (s sF : SimState) (i j : Nat)
    (hb : s.bodies = [i, j]) (hij : i ≠ j)
    (hmi : 0 < (s.store i).mass) (hmj : 0 < (s.store j).mass)
    (hpos : (s.store i).pos ≠ (s.store j).pos)
    (hrun : tickIter n s = Except.ok sF) (hnorem : sF.bodies = [i, j]) :
    momentum sF i j = momentum s i j :=
  tickIter_two_body n i j hij sF s hb hrun hnorem

/-- A two-planet system with distinct ids and positions, for the C7
witness. -/
noncomputable def farPlanetBody : Body :=
  { kind := BodyKind.Planet, mass := 2, pos := (100, 0), velocity := (0, 1),
    display_size := 20, cleared := false }

noncomputable def twoBodyState : SimState :=
  { store := fun n => if n = 0 then planetBody else farPlanetBody,
    bodies := [0, 1], flushes := 0 }

/-- Witness for C7 at the concrete two-body system (zero ticks). -/
theorem two_body_momentum_invariant_witness :
    (twoBodyState.bodies = [0, 1] ∧ (0 : Nat) ≠ 1 ∧
      0 < (twoBodyState.store 0).mass ∧ 0 < (twoBodyState.store 1).mass ∧
      (twoBodyState.store 0).pos ≠ (twoBodyState.store 1).pos ∧
      tickIter 0 twoBodyState = Except.ok twoBodyState) ∧
    momentum twoBodyState 0 1 = momentum twoBodyState 0 1 := by
  have h1 : twoBodyState.bodies = [0, 1] := rfl
  have h2 : (0 : Nat) ≠ 1 := by norm_num
  have h3 : 0 < (twoBodyState.store 0).mass := by
    norm_num [twoBodyState, planetBody]
  have h4 : 0 < (twoBodyState.store 1).mass := by
    norm_num [twoBodyState, farPlanetBody]
  have h5 : (twoBodyState.store 0).pos ≠ (twoBodyState.store 1).pos := by
    simp [twoBodyState, planetBody, farPlanetBody, Prod.ext_iff]
  have h6 : tickIter 0 twoBodyState = Except.ok twoBodyState := rfl
  exact ⟨⟨h1, h2, h3, h4, h5, h6⟩,
    two_body_momentum_invariant 0 twoBodyState twoBodyState 0 1 h1 h2 h3 h4 h5 h6 h1⟩

/-! ### Evaluation helpers for concrete scans (used for C9 and C10) -/

/-- When the visual radii do not overlap, `check_collision` returns the
state unchanged, whatever the kinds. -/
theorem check_collision_no_overlap (s : SimState) (i j : Nat)
    (hnot : ¬ distance (s.store i) (s.store j) <
      (s.store i).display_size / 2 + (s.store j).display_size / 2) :
    check_collision s i j = Except.ok s := by
  unfold check_collision
  by_cases hk : (s.store i).kind = BodyKind.Planet ∧ (s.store j).kind = BodyKind.Planet
  · simp [hk]
  · simp [hk, hnot]

/-- Overlapping Planet-then-Star pair with the Planet still alive:
exactly the Planet is removed (cleared, then erased from the list). -/
theorem check_collision_planet_star_removes (s : SimState) (i j : Nat)
    (h1 : (s.store i).kind = BodyKind.Planet) (h2 : (s.store j).kind = BodyKind.Star)
    (hdist : distance (s.store i) (s.store j) <
      (s.store i).display_size / 2 + (s.store j).display_size / 2)
    (hmem : i ∈ s.bodies) :
    check_collision s i j = Except.ok
      { setBody s i { s.store i with cleared := true } with
        bodies := s.bodies.erase i } := by
  unfold check_collision
  simp only [h1, h2, remove_body]
  simp [hdist, setBody_bodies, hmem]

/-- Overlapping Planet-then-Star pair with the Planet already removed
from the live list: the second `remove_body` clears the drawing again
and then raises `ValueError` from `list.remove`. -/
theorem check_collision_planet_star_raises (s : SimState) (i j : Nat)
    (h1 : (s.store i).kind = BodyKind.Planet) (h2 : (s.store j).kind = BodyKind.Star)
    (hdist : distance (s.store i) (s.store j) <
      (s.store i).display_size / 2 + (s.store j).display_size / 2)
    (hmem : i ∉ s.bodies) :
    check_collision s i j = Except.error
      (setBody s i { s.store i with cleared := true }) := by
  unfold check_collision
  simp only [h1, h2, remove_body]
  simp [hdist, setBody_bodies, hmem]

/-- In-scan gravity between two bodies on a common horizontal line
(`i` west of `j`), in closed form: the bearing is due east, so only the
x-velocities change, by `±F/m`. -/
theorem accelGravAt_xaxis (s : SimState) (i j : Nat) (hij : i ≠ j) (xa xb y : ℝ)
    (ha : (s.store i).pos = (xa, y)) (hb : (s.store j).pos = (xb, y)) (hx : xa < xb)
    (hmi : (s.store i).mass ≠ 0) (hmj : (s.store j).mass ≠ 0) :
    accelGravAt s i j = Except.ok (setBody (setBody s i
      { s.store i with velocity :=
          ((s.store i).velocity.1 +
             (s.store i).mass * (s.store j).mass / (xb - xa) ^ 2 / (s.store i).mass,
           (s.store i).velocity.2) }) j
      { s.store j with velocity :=
          ((s.store j).velocity.1 -
             (s.store i).mass * (s.store j).mass / (xb - xa) ^ 2 / (s.store j).mass,
           (s.store j).velocity.2) }) := by
  have hd : distance (s.store i) (s.store j) = xb - xa :=
    distance_xaxis _ _ xa xb y ha hb hx.le
  have hdnz : distance (s.store i) (s.store j) ^ 2 ≠ 0 := by
    rw [hd]
    exact pow_ne_zero 2 (sub_ne_zero.2 hx.ne')
  have hrad : radians (towards (s.store i) (s.store j)) = 0 :=
    radians_towards_xaxis _ _ xa xb y ha hb hx.le
  rw [accelGravAt_eq s i j hij hdnz hmi hmj, hd, hrad, Real.cos_zero, Real.sin_zero]
  simp only [mul_one, one_mul, mul_zero, add_zero, neg_one_mul, ← sub_eq_add_neg]

/-- The `update_all` loop leaves a body absent from the live list
completely untouched. -/
theorem update_foldl_store_notmem (l : List Nat) (t : SimState) (q : Nat) (h : q ∉ l) :
    (List.foldl (fun t id => setBody t id (moveDraw (t.store id))) t l).store q =
      t.store q := by
  induction l generalizing t with
  | nil => rfl
  | cons x xs ih =>
    have hqx : q ≠ x := fun he => h (he ▸ List.mem_cons_self x xs)
    have hqxs : q ∉ xs := fun hm => h (List.mem_cons_of_mem x hm)
    simp only [List.foldl_cons]
    rw [ih _ hqxs, setBody_store_ne _ x q hqx _]

/-! ### Concrete three-body scan (Planet west of two Stars): claim C9 -/

/-- Pointwise description of a simulation state. -/
theorem simstate_eq (s t : SimState) (hs : ∀ q, s.store q = t.store q)
    (hb : s.bodies = t.bodies) (hf : s.flushes = t.flushes) : s = t := by
  cases s
  cases t
  simp only [SimState.mk.injEq]
  exact ⟨funext hs, hb, hf⟩

noncomputable def starOne : Body :=
  { kind := BodyKind.Star, mass := 1, pos := (1, 0), velocity := (0, 0),
    display_size := 20, cleared := false }

noncomputable def starFarA : Body :=
  { kind := BodyKind.Star, mass := 1, pos := (100, 0), velocity := (0, 0),
    display_size := 20, cleared := false }

/-- Initial scan scenario: a Planet (id 0) overlapping a Star (id 1),
with a second, distant Star (id 2). -/
noncomputable def scanState9 : SimState :=
  { store := fun n => if n = 0 then planetBody else if n = 1 then starOne else starFarA,
    bodies := [0, 1, 2], flushes := 0 }

noncomputable def planetKicked : Body :=
  { kind := BodyKind.Planet, mass := 1, pos := (0, 0), velocity := (1, 0),
    display_size := 20, cleared := false }

noncomputable def starOneKicked : Body :=
  { kind := BodyKind.Star, mass := 1, pos := (1, 0), velocity := (-1, 0),
    display_size := 20, cleared := false }

/-- State after gravity on the pair `(0, 1)`. -/
noncomputable def scanA9 : SimState :=
  { store := fun n => if n = 0 then planetKicked else if n = 1 then starOneKicked else starFarA,
    bodies := [0, 1, 2], flushes := 0 }

theorem scan9_acc1 : accelGravAt scanState9 0 1 = Except.ok scanA9 := by
  rw [accelGravAt_xaxis scanState9 0 1 (by norm_num) 0 1 0 rfl rfl (by norm_num)
    (by norm_num [scanState9, planetBody]) (by norm_num [scanState9, starOne])]
  refine congrArg Except.ok (simstate_eq _ _ ?_ rfl rfl)
  intro q
  by_cases h0 : q = 0
  · subst h0
    rw [setBody_store_ne _ 1 0 (by norm_num) _, setBody_store_same]
    norm_num [scanState9, scanA9, planetBody, starOne, planetKicked, Body.mk.injEq,
      Prod.mk.injEq]
  · by_cases h1 : q = 1
    · subst h1
      rw [setBody_store_same]
      norm_num [scanState9, scanA9, planetBody, starOne, starOneKicked, Body.mk.injEq,
        Prod.mk.injEq]
    · rw [setBody_store_ne _ 1 q h1 _, setBody_store_ne _ 0 q h0 _]
      simp [scanState9, scanA9, h0, h1]

noncomputable def planetGone : Body :=
  { kind := BodyKind.Planet, mass := 1, pos := (0, 0), velocity := (1, 0),
    display_size := 20, cleared := true }

/-- State after the collision on `(0, 1)` removed the Planet. -/
noncomputable def scanB9 : SimState :=
  { store := fun n => if n = 0 then planetGone else if n = 1 then starOneKicked else starFarA,
    bodies := [1, 2], flushes := 0 }

theorem scan9_col1 : check_collision scanA9 0 1 = Except.ok scanB9 := by
  have hd : distance (scanA9.store 0) (scanA9.store 1) = 1 - 0 :=
    distance_xaxis _ _ 0 1 0 rfl rfl (by norm_num)
  have hlt : distance (scanA9.store 0) (scanA9.store 1) <
      (scanA9.store 0).display_size / 2 + (scanA9.store 1).display_size / 2 := by
    rw [hd]
    norm_num [scanA9, planetKicked, starOneKicked]
  rw [check_collision_planet_star_removes scanA9 0 1 rfl rfl hlt (by simp [scanA9])]
  refine congrArg Except.ok (simstate_eq _ _ ?_ rfl rfl)
  intro q
  by_cases h0 : q = 0
  · subst h0
    rw [setBody_store_same]
    norm_num [scanA9, scanB9, planetKicked, planetGone, Body.mk.injEq]
  · rw [setBody_store_ne _ 0 q h0 _]
    simp [scanA9, scanB9, h0]

theorem scan9_int1 : interactPair scanState9 (0, 1) = Except.ok scanB9 := by
  simp only [interactPair]
  rw [scan9_acc1]
  exact scan9_col1

noncomputable def planetGone2 : Body :=
  { kind := BodyKind.Planet, mass := 1, pos := (0, 0), velocity := (1 + 1 / 10000, 0),
    display_size := 20, cleared := true }

noncomputable def starFarKicked : Body :=
  { kind := BodyKind.Star, mass := 1, pos := (100, 0), velocity := (-(1 / 10000), 0),
    display_size := 20, cleared := false }

/-- State after gravity on `(0, 2)` — the removed Planet's velocity is
mutated again. -/
noncomputable def scanC9 : SimState :=
  { store := fun n => if n = 0 then planetGone2 else if n = 1 then starOneKicked
      else if n = 2 then starFarKicked else starFarA,
    bodies := [1, 2], flushes := 0 }

theorem scan9_acc2 : accelGravAt scanB9 0 2 = Except.ok scanC9 := by
  rw [accelGravAt_xaxis scanB9 0 2 (by norm_num) 0 100 0 rfl rfl (by norm_num)
    (by norm_num [scanB9, planetGone]) (by norm_num [scanB9, starFarA])]
  refine congrArg Except.ok (simstate_eq _ _ ?_ rfl rfl)
  intro q
  by_cases h0 : q = 0
  · subst h0
    rw [setBody_store_ne _ 2 0 (by norm_num) _, setBody_store_same]
    norm_num [scanB9, scanC9, planetGone, starFarA, planetGone2, Body.mk.injEq,
      Prod.mk.injEq]
  · by_cases h2 : q = 2
    · subst h2
      rw [setBody_store_same]
      norm_num [scanB9, scanC9, planetGone, starFarA, starFarKicked, Body.mk.injEq,
        Prod.mk.injEq]
    · rw [setBody_store_ne _ 2 q h2 _, setBody_store_ne _ 0 q h0 _]
      simp [scanB9, scanC9, h0, h2]

theorem scan9_col2 : check_collision scanC9 0 2 = Except.ok scanC9 := by
  have hd : distance (scanC9.store 0) (scanC9.store 2) = 100 - 0 :=
    distance_xaxis _ _ 0 100 0 rfl rfl (by norm_num)
  refine check_collision_no_overlap scanC9 0 2 ?_
  rw [hd]
  norm_num [scanC9, planetGone2, starFarKicked]

theorem scan9_int2 : interactPair scanB9 (0, 2) = Except.ok scanC9 := by
  simp only [interactPair]
  rw [scan9_acc2]
  exact scan9_col2

noncomputable def starOneKicked2 : Body :=
  { kind := BodyKind.Star, mass := 1, pos := (1, 0), velocity := (-1 + 1 / 9801, 0),
    display_size := 20, cleared := false }

noncomputable def starFarKicked2 : Body :=
  { kind := BodyKind.Star, mass := 1, pos := (100, 0),
    velocity := (-(1 / 10000) - 1 / 9801, 0), display_size := 20, cleared := false }

/-- Final state of the scan, after gravity on `(1, 2)`. -/
noncomputable def scanE9 : SimState :=
  { store := fun n => if n = 0 then planetGone2 else if n = 1 then starOneKicked2
      else if n = 2 then starFarKicked2 else starFarA,
    bodies := [1, 2], flushes := 0 }

theorem scan9_acc3 : accelGravAt scanC9 1 2 = Except.ok scanE9 := by
  rw [accelGravAt_xaxis scanC9 1 2 (by norm_num) 1 100 0 rfl rfl (by norm_num)
    (by norm_num [scanC9, starOneKicked]) (by norm_num [scanC9, starFarKicked])]
  refine congrArg Except.ok (simstate_eq _ _ ?_ rfl rfl)
  intro q
  by_cases h1 : q = 1
  · subst h1
    rw [setBody_store_ne _ 2 1 (by norm_num) _, setBody_store_same]
    norm_num [scanC9, scanE9, starOneKicked, starFarKicked, starOneKicked2,
      Body.mk.injEq, Prod.mk.injEq]
  · by_cases h2 : q = 2
    · subst h2
      rw [setBody_store_same]
      norm_num [scanC9, scanE9, starOneKicked, starFarKicked, starFarKicked2,
        Body.mk.injEq, Prod.mk.injEq]
    · rw [setBody_store_ne _ 2 q h2 _, setBody_store_ne _ 1 q h1 _]
      simp [scanC9, scanE9, h1, h2]

theorem scan9_col3 : check_collision scanE9 1 2 = Except.ok scanE9 := by
  have hd : distance (scanE9.store 1) (scanE9.store 2) = 100 - 1 :=
    distance_xaxis _ _ 1 100 0 rfl rfl (by norm_num)
  refine check_collision_no_overlap scanE9 1 2 ?_
  rw [hd]
  norm_num [scanE9, starOneKicked2, starFarKicked2]

theorem scan9_int3 : interactPair scanC9 (1, 2) = Except.ok scanE9 := by
  simp only [interactPair]
  rw [scan9_acc3]
  exact scan9_col3

theorem scan9_calc : calculate_all_body_interactions scanState9 = Except.ok scanE9 := by
  unfold calculate_all_body_interactions
  rw [show pairsAux scanState9.bodies = [(0, 1), (0, 2), (1, 2)] from rfl]
  rw [List.foldlM_cons, scan9_int1]
  show List.foldlM interactPair scanB9 [(0, 2), (1, 2)] = _
  rw [List.foldlM_cons, scan9_int2]
  show List.foldlM interactPair scanC9 [(1, 2)] = _
  rw [List.foldlM_cons, scan9_int3]
  rfl

/-- C9 counterexample: in the scan of `scanState9`, the pair `(0, 1)`
removes the Planet (id 0) from the live collection with velocity
`(1, 0)`; yet by the end of the same tick's scan the removed Planet's
velocity has been mutated again (by gravity from the pair `(0, 2)`), so
a removed body does still have observers within the same tick. -/
theorem removed_planet_still_observed :
    ∃ s1, interactPair scanState9 (0, 1) = Except.ok s1 ∧ (0 : Nat) ∉ s1.bodies ∧
      (s1.store 0).velocity = (1, 0) ∧
      ∃ sF, calculate_all_body_interactions scanState9 = Except.ok sF ∧
        (0 : Nat) ∉ sF.bodies ∧ (sF.store 0).velocity ≠ (1, 0) := by
  refine ⟨scanB9, scan9_int1, by simp [scanB9], rfl, scanE9, scan9_calc,
    by simp [scanE9], ?_⟩
  simp only [scanE9, planetGone2]
  intro h
  have h1 := congrArg Prod.fst h
  norm_num at h1

/-- C9 amended: a removed body (absent from the live list) has no
observers outside the remainder of the current tick's snapshot scan:
`update_all` neither moves nor redraws it, it is absent from the live
list afterwards, and it appears in no pair generated from the live
list (hence is untouched by all later ticks); however, the remaining
pairs of the snapshot taken before its removal still reference it. -/
theorem removed_body_no_later_observers (s : SimState) (id : Nat) (h : id ∉ s.bodies) :
    (update_all s).store id = s.store id ∧
    id ∉ (update_all s).bodies ∧
    ∀ p ∈ pairsAux s.bodies, p.1 ≠ id ∧ p.2 ≠ id := by
  refine ⟨?_, ?_, ?_⟩
  · show (List.foldl _ s s.bodies).store id = s.store id
    exact update_foldl_store_notmem s.bodies s id h
  · rw [(update_all_fields s 0).1]
    exact h
  · intro p hp
    constructor
    · intro he
      exact h (he ▸ (mem_of_mem_pairsAux s.bodies p hp).1)
    · intro he
      exact h (he ▸ (mem_of_mem_pairsAux s.bodies p hp).2)

/-- Witness for the amended C9: id 7 is not registered in the
two-planet system, and indeed has no observers. -/
theorem removed_body_no_later_observers_witness :
    (7 : Nat) ∉ twoPlanetState.bodies ∧
      ((update_all twoPlanetState).store 7 = twoPlanetState.store 7 ∧
      (7 : Nat) ∉ (update_all twoPlanetState).bodies ∧
      ∀ p ∈ pairsAux twoPlanetState.bodies, p.1 ≠ 7 ∧ p.2 ≠ 7) := by
  have h : (7 : Nat) ∉ twoPlanetState.bodies := by simp [twoPlanetState]
  exact ⟨h, removed_body_no_later_observers twoPlanetState 7 h⟩

/-! ### Concrete scan where a Planet overlaps two Stars: claim C10 -/

noncomputable def starTwo : Body :=
  { kind := BodyKind.Star, mass := 1, pos := (2, 0), velocity := (0, 0),
    display_size := 20, cleared := false }

/-- A Planet (id 0) overlapping two Stars (ids 1 and 2) at once. -/
noncomputable def scanState10 : SimState :=
  { store := fun n => if n = 0 then planetBody else if n = 1 then starOne else starTwo,
    bodies := [0, 1, 2], flushes := 0 }

noncomputable def scanA10 : SimState :=
  { store := fun n => if n = 0 then planetKicked else if n = 1 then starOneKicked else starTwo,
    bodies := [0, 1, 2], flushes := 0 }

theorem scan10_acc1 : accelGravAt scanState10 0 1 = Except.ok scanA10 := by
  rw [accelGravAt_xaxis scanState10 0 1 (by norm_num) 0 1 0 rfl rfl (by norm_num)
    (by norm_num [scanState10, planetBody]) (by norm_num [scanState10, starOne])]
  refine congrArg Except.ok (simstate_eq _ _ ?_ rfl rfl)
  intro q
  by_cases h0 : q = 0
  · subst h0
    rw [setBody_store_ne _ 1 0 (by norm_num) _, setBody_store_same]
    norm_num [scanState10, scanA10, planetBody, starOne, planetKicked, Body.mk.injEq,
      Prod.mk.injEq]
  · by_cases h1 : q = 1
    · subst h1
      rw [setBody_store_same]
      norm_num [scanState10, scanA10, planetBody, starOne, starOneKicked, Body.mk.injEq,
        Prod.mk.injEq]
    · rw [setBody_store_ne _ 1 q h1 _, setBody_store_ne _ 0 q h0 _]
      simp [scanState10, scanA10, h0, h1]

noncomputable def scanB10 : SimState :=
  { store := fun n => if n = 0 then planetGone else if n = 1 then starOneKicked else starTwo,
    bodies := [1, 2], flushes := 0 }

theorem scan10_col1 : check_collision scanA10 0 1 = Except.ok scanB10 := by
  have hd : distance (scanA10.store 0) (scanA10.store 1) = 1 - 0 :=
    distance_xaxis _ _ 0 1 0 rfl rfl (by norm_num)
  have hlt : distance (scanA10.store 0) (scanA10.store 1) <
      (scanA10.store 0).display_size / 2 + (scanA10.store 1).display_size / 2 := by
    rw [hd]
    norm_num [scanA10, planetKicked, starOneKicked]
  rw [check_collision_planet_star_removes scanA10 0 1 rfl rfl hlt (by simp [scanA10])]
  refine congrArg Except.ok (simstate_eq _ _ ?_ rfl rfl)
  intro q
  by_cases h0 : q = 0
  · subst h0
    rw [setBody_store_same]
    norm_num [scanA10, scanB10, planetKicked, planetGone, Body.mk.injEq]
  · rw [setBody_store_ne _ 0 q h0 _]
    simp [scanA10, scanB10, h0]

theorem scan10_int1 : interactPair scanState10 (0, 1) = Except.ok scanB10 := by
  simp only [interactPair]
  rw [scan10_acc1]
  exact scan10_col1

noncomputable def planetGoneKicked : Body :=
  { kind := BodyKind.Planet, mass := 1, pos := (0, 0), velocity := (1 + 1 / 4, 0),
    display_size := 20, cleared := true }

noncomputable def starTwoKicked : Body :=
  { kind := BodyKind.Star, mass := 1, pos := (2, 0), velocity := (-(1 / 4), 0),
    display_size := 20, cleared := false }

/-- State after gravity on `(0, 2)`, just before the raising collision
check: the Planet is long gone from the live list but was mutated. -/
noncomputable def scanC10 : SimState :=
  { store := fun n => if n = 0 then planetGoneKicked else if n = 1 then starOneKicked
      else if n = 2 then starTwoKicked else starTwo,
    bodies := [1, 2], flushes := 0 }

theorem scan10_acc2 : accelGravAt scanB10 0 2 = Except.ok scanC10 := by
  rw [accelGravAt_xaxis scanB10 0 2 (by norm_num) 0 2 0 rfl rfl (by norm_num)
    (by norm_num [scanB10, planetGone]) (by norm_num [scanB10, starTwo])]
  refine congrArg Except.ok (simstate_eq _ _ ?_ rfl rfl)
  intro q
  by_cases h0 : q = 0
  · subst h0
    rw [setBody_store_ne _ 2 0 (by norm_num) _, setBody_store_same]
    norm_num [scanB10, scanC10, planetGone, starTwo, planetGoneKicked, Body.mk.injEq,
      Prod.mk.injEq]
  · by_cases h2 : q = 2
    · subst h2
      rw [setBody_store_same]
      norm_num [scanB10, scanC10, planetGone, starTwo, starTwoKicked, Body.mk.injEq,
        Prod.mk.injEq]
    · rw [setBody_store_ne _ 2 q h2 _, setBody_store_ne _ 0 q h0 _]
      simp [scanB10, scanC10, h0, h2]

theorem scan10_col2 : check_collision scanC10 0 2 = Except.error scanC10 := by
  have hd : distance (scanC10.store 0) (scanC10.store 2) = 2 - 0 :=
    distance_xaxis _ _ 0 2 0 rfl rfl (by norm_num)
  have hlt : distance (scanC10.store 0) (scanC10.store 2) <
      (scanC10.store 0).display_size / 2 + (scanC10.store 2).display_size / 2 := by
    rw [hd]
    norm_num [scanC10, planetGoneKicked, starTwoKicked]
  rw [check_collision_planet_star_raises scanC10 0 2 rfl rfl hlt (by simp [scanC10])]
  refine congrArg Except.error (simstate_eq _ _ ?_ rfl rfl)
  intro q
  by_cases h0 : q = 0
  · subst h0
    rw [setBody_store_same]
    norm_num [scanC10, planetGoneKicked, Body.mk.injEq]
  · rw [setBody_store_ne _ 0 q h0 _]

theorem scan10_int2 : interactPair scanB10 (0, 2) = Except.error scanC10 := by
  simp only [interactPair]
  rw [scan10_acc2]
  exact scan10_col2

/-- C10: in `scanState10` the Planet overlaps both Stars; the pair
`(0, 1)` removes it, and the pair `(0, 2)` calls `remove_body` on it
again — which clears its (already cleared) drawing and then raises
`ValueError` from `list.remove`, interrupting the whole tick:
`calculate_all_body_interactions` (and hence the tick) ends in the
error state, in which the Planet is cleared and deregistered but the
scan never reached the pair `(1, 2)`. -/
theorem scan10_calc :
    calculate_all_body_interactions scanState10 = Except.error scanC10 := by
  unfold calculate_all_body_interactions
  rw [show pairsAux scanState10.bodies = [(0, 1), (0, 2), (1, 2)] from rfl]
  rw [List.foldlM_cons, scan10_int1]
  show List.foldlM interactPair scanB10 [(0, 2), (1, 2)] = _
  rw [List.foldlM_cons, scan10_int2]
  rfl

theorem double_removal_raises_mid_tick :
    ∃ se, calculate_all_body_interactions scanState10 = Except.error se ∧
      tick scanState10 = Except.error se ∧
      (se.store 0).cleared = true ∧ se.bodies = [1, 2] := by
  refine ⟨scanC10, scan10_calc, ?_, rfl, rfl⟩
  simp only [tick, scan10_calc]

/-- C6 counterexample: in `scanState10` the pair `(1, 2)` belongs to the
snapshot's pair list, yet the scan aborts (on the `ValueError` raised
by the second removal of body 0) before reaching it — in the error
state, the velocities of bodies 1 and 2 still lack the `(1, 2)` gravity
kicks — so a pair of the snapshot IS skipped within that tick. -/
theorem scan_aborts_skipping_snapshot_pair :
    ((1, 2) ∈ pairsAux scanState10.bodies) ∧
    ∃ se, calculate_all_body_interactions scanState10 = Except.error se ∧
      (se.store 1).velocity = (-1, 0) ∧ (se.store 2).velocity = (-(1 / 4), 0) := by
  constructor
  · show (1, 2) ∈ pairsAux [0, 1, 2]
    simp [pairsAux]
  · exact ⟨scanC10, scan10_calc, rfl, rfl⟩
